import Mathlib

/-!
Verification development for the `impactutils` repository
(`impactutils/colors/cpalette.py` and `impactutils/io/table.py`).

The Python code is shallowly embedded below.  Real-number arithmetic is
modelled over `ℚ` (the concrete values exercised by the program — colors in
0..255, spectral periods, normalized positions — are all exactly
representable, and on those values Python float comparison agrees with the
rational comparison used here).  Code that can raise a Python exception is
embedded with `Except String` (or `Option` where a single failure mode
suffices); a `.error`/`none` result models the exception propagating out of
the function.
-/

namespace ImpactUtils

abbrev Rgb := ℚ × ℚ × ℚ

abbrev Rgba := ℚ × ℚ × ℚ × ℚ

/-! Python string primitives, over the underlying character lists (the
corresponding core `String` functions recurse on byte positions and are not
kernel-reducible, which would block evaluating the embedding on concrete
inputs). -/

/-- Python `s.startswith(prefix)`. -/
def pyStartsWith (s pre : String) : Bool :=
  pre.data.isPrefixOf s.data

/-- `str.strip()`'s default whitespace set (space, tab, LF, CR, VT, FF). -/
def isPySpace (c : Char) : Bool :=
  c = ' ' || c = '\t' || c = '\n' || c = '\r' || c.toNat = 11 || c.toNat = 12

/-- Python `s.strip()` on a character list. -/
def stripChars (cs : List Char) : List Char :=
  ((cs.dropWhile isPySpace).reverse.dropWhile isPySpace).reverse

/-- Python `s.strip()`. -/
def pyStrip (s : String) : String :=
  String.mk (stripChars s.data)

/-- Python `s.split(sep)` for a one-character separator (the source only
splits on `':'`, `','` and `'.'`). -/
def splitChar (sep : Char) : List Char → List (List Char)
  | [] => [[]]
  | c :: rest =>
    if c = sep then [] :: splitChar sep rest
    else
      match splitChar sep rest with
      | [] => [[c]]
      | h :: t => (c :: h) :: t

/-- Python `s.upper()`. -/
def pyToUpper (s : String) : String :=
  String.mk (s.data.map Char.toUpper)

/-- Numeric value of a list of decimal digit characters. -/
def digitsVal (l : List Char) : ℕ :=
  l.foldl (fun acc c => acc * 10 + (c.toNat - 48)) 0

/-- Python `int(s)` on already-stripped characters: an optional sign
followed by a nonempty digit string. -/
def pyIntCore : List Char → Option Int
  | [] => none
  | '-' :: ds =>
    if !ds.isEmpty && ds.all Char.isDigit then some (-(digitsVal ds : ℤ)) else none
  | '+' :: ds =>
    if !ds.isEmpty && ds.all Char.isDigit then some ((digitsVal ds : ℤ)) else none
  | ds =>
    if ds.all Char.isDigit then some ((digitsVal ds : ℤ)) else none

/-- `np.array(l).min()` — minimum of a sequence (`numpy` raises on an empty
array; the claims only use nonempty sequences, `0` is a junk value). -/
def npMin (l : List ℚ) : ℚ :=
  match l with
  | [] => 0
  | a :: rest => rest.foldl min a

/-- `np.array(l).max()` — maximum of a sequence (junk `0` on empty). -/
def npMax (l : List ℚ) : ℚ :=
  match l with
  | [] => 0
  | a :: rest => rest.foldl max a

/-- State of a constructed `ColorPalette` object: `_vmin`, `_vmax`, the
per-channel interpolation tables `_cdict['red'/'green'/'blue']` (rows of
`(x, y0, y1)` triplets exactly as appended in `__init__`), and `nan_color`. -/
structure Palette where
  name : String
  vmin : ℚ
  vmax : ℚ
  red : List (ℚ × ℚ × ℚ)
  green : List (ℚ × ℚ × ℚ)
  blue : List (ℚ × ℚ × ℚ)
  nan_color : Option Rgba
deriving Repr, DecidableEq

/-- One channel of the `cdict` construction loop in `ColorPalette.__init__`:
row `i` is `(x[i], rgb1_t[i][k]/255, rgb0_t[i][k]/255)` for channel selector
`k`.  The Python loop runs over `range(len(x))` indexing both rgb lists; on
the inputs reachable here `x` is never longer than the rgb lists, so the
truncating `zipWith` agrees with the loop. -/
def buildChannel (sel : Rgb → ℚ) (x : List ℚ) (rgb1_t rgb0_t : List Rgb) :
    List (ℚ × ℚ × ℚ) :=
  List.zipWith (fun xi (p : Rgb × Rgb) => (xi, sel p.1 / 255, sel p.2 / 255))
    x (rgb1_t.zip rgb0_t)

/-- Body of `ColorPalette.__init__` after the length check: computes
`_vmin = z0.min()`, `_vmax = z1.max()`, normalizes the z values, prepends the
`B` dummy row to `rgb1`, appends the `E` dummy row to `rgb0`, appends
`adj_z1[-1]` to the x column, and builds the three channel tables.

Faithful for `npMin z0 ≠ npMax z1`, the only region the theorems below use
it in.  When instead `z0.min() == z1.max()`, the program's adjusted
positions are float NaN (`0/0`), and matplotlib's lazy LUT construction
raises a generic `ValueError` at the first colormap lookup; the ℚ
normalization here would silently give position `0`, so that degenerate
construction is left out of scope (degenerate *query* domains — bounds
rescaled after a sound construction — are modelled exactly, via
`pyNormalize`). -/
def makePalette (name : String) (z0 z1 : List ℚ) (rgb0 rgb1 : List Rgb)
    (nan_color : Option Rgba) : Palette :=
  let vmin := npMin z0
  let vmax := npMax z1
  let adj_z0 := z0.map (fun z => (z - vmin) / (vmax - vmin))
  let adj_z1 := z1.map (fun z => (z - vmin) / (vmax - vmin))
  let B : ℚ := -(999 / 1000) * 255
  let E : ℚ := (999 / 1000) * 255
  let rgb0_t := rgb0 ++ [(E, E, E)]
  let rgb1_t := (B, B, B) :: rgb1
  let x := adj_z0 ++ [adj_z1.getLastD 0]
  { name := name
    vmin := vmin
    vmax := vmax
    red := buildChannel (fun c => c.1) x rgb1_t rgb0_t
    green := buildChannel (fun c => c.2.1) x rgb1_t rgb0_t
    blue := buildChannel (fun c => c.2.2) x rgb1_t rgb0_t
    nan_color := nan_color }

/-- The length-validation guard of `ColorPalette.__init__` as written in the
source: the Python chained comparison
`len(z0) != len(z1) != len(rgb0) != len(rgb1)` is
`(len(z0) != len(z1)) and (len(z1) != len(rgb0)) and (len(rgb0) != len(rgb1))`. -/
def lengthCheckRaises (n0 n1 nr0 nr1 : ℕ) : Bool :=
  (n0 ≠ n1 : Bool) && (n1 ≠ nr0 : Bool) && (nr0 ≠ nr1 : Bool)

/-- The intended validation (per the source comment "validate that lengths
are all identical" and the spec's `LengthMismatch` contract). -/
def allLengthsEqual (n0 n1 nr0 nr1 : ℕ) : Bool :=
  (n0 = n1 : Bool) && (n1 = nr0 : Bool) && (nr0 = nr1 : Bool)

/-- Full `ColorPalette.__init__`: the guard followed by construction. -/
def init (name : String) (z0 z1 : List ℚ) (rgb0 rgb1 : List Rgb)
    (nan_color : Option Rgba) : Except String Palette :=
  if lengthCheckRaises z0.length z1.length rgb0.length rgb1.length then
    .error "Lengths of input sequences to ColorPalette() must be identical."
  else
    .ok (makePalette name z0 z1 rgb0 rgb1 nan_color)

/-- Result of the float division `(value - vmin) / (vmax - vmin)`: a finite
value, or one of the IEEE non-finite outcomes of a zero denominator —
`0/0` is NaN, a nonzero numerator over zero is `±inf` by the numerator's
sign.  (No exception is raised either way.) -/
inductive NormResult where
  | val (t : ℚ)
  | nan
  | posInf
  | negInf
deriving Repr, DecidableEq

/-- `(value - vmin) / (vmax - vmin)` with Python/numpy float semantics:
finite when the denominator is nonzero, NaN exactly for `0/0`, and `±inf`
for a nonzero numerator over zero. -/
def pyNormalize (value vmin vmax : ℚ) : NormResult :=
  if vmax - vmin = 0 then
    if value - vmin = 0 then .nan
    else if 0 < value - vmin then .posInf
    else .negInf
  else .val ((value - vmin) / (vmax - vmin))

/-- Piecewise-linear interpolation strictly between the first and last rows
of a channel table: between adjacent rows `(x_i, y0_i, y1_i)` and
`(x_j, y0_j, y1_j)` the value is `y1_i + (t - x_i)/(x_j - x_i) * (y0_j - y1_i)`. -/
def interpSegments : (ℚ × ℚ × ℚ) → List (ℚ × ℚ × ℚ) → ℚ → ℚ
  | prev, [], _ => prev.2.1
  | prev, r :: rest, t =>
    if t ≤ r.1 then prev.2.2 + (t - prev.1) / (r.1 - prev.1) * (r.2.1 - prev.2.2)
    else interpSegments r rest t

/-- The external colormap capability (`matplotlib.colors.LinearSegmentedColormap`
evaluated at a normalized position), per its documented semantics, which the
spec also describes: a `cdict` channel is an ordered list of
`(x, y0, y1)` rows; at or below the first row's `x` the first row's `y1` is
returned, at or above the last row's `x` the last row's `y0` is returned
(matplotlib computes both endpoint LUT entries exactly), and in between the
value is linearly interpolated using the lower row's `y1` and the upper
row's `y0`. -/
def cmapEval (rows : List (ℚ × ℚ × ℚ)) (t : ℚ) : ℚ :=
  match rows with
  | [] => 0
  | r :: rest =>
    if t ≤ r.1 then r.2.2
    else
      let lastRow := rest.getLastD r
      if lastRow.1 ≤ t then lastRow.2.1
      else interpSegments r rest t

/-- The colormap's bad-value (NaN) color, installed by
`self._cmap.set_bad(self.nan_color)`.  matplotlib's default bad color for a
colormap is fully transparent `(0,0,0,0)`; the claims only exercise palettes
with an explicit `nan_color`. -/
def setBad (nc : Option Rgba) : Rgba :=
  nc.getD (0, 0, 0, 0)

/-- The colormap's over color (input above the domain): matplotlib's
default over entry is a copy of the top LUT entry, i.e. the last row's
arriving value. -/
def cmapOver (rows : List (ℚ × ℚ × ℚ)) : ℚ :=
  match rows with
  | [] => 0
  | r :: rest => (rest.getLastD r).2.1

/-- The colormap's under color (input below the domain): matplotlib's
default under entry is a copy of the bottom LUT entry, i.e. the first row's
leaving value. -/
def cmapUnder (rows : List (ℚ × ℚ × ℚ)) : ℚ :=
  match rows with
  | [] => 0
  | r :: _ => r.2.2

/-- `self.cmap(normvalue)`: evaluate the three channel tables at a finite
normalized position (alpha 1); a NaN position gets the bad color installed
by `set_bad`, and `±inf` positions are clamped to the default over/under
colors (copies of the boundary LUT entries). -/
def applyCdict (p : Palette) (r : NormResult) : Rgba :=
  match r with
  | .nan => setBad p.nan_color
  | .posInf => (cmapOver p.red, cmapOver p.green, cmapOver p.blue, 1)
  | .negInf => (cmapUnder p.red, cmapUnder p.green, cmapUnder p.blue, 1)
  | .val t => (cmapEval p.red t, cmapEval p.green t, cmapEval p.blue t, 1)

/-- `ColorPalette.getDataColor`: normalize the raw value with the current
`vmin`/`vmax` and look it up in the colormap. -/
def getDataColor (p : Palette) (value : ℚ) : Rgba :=
  applyCdict p (pyNormalize value p.vmin p.vmax)

/-- Modelled from the spec: the `DegenerateDomain`-guarded query the spec
demands ("Undefined for `value` such that `t` is NaN ... must fail with a
`DegenerateDomain` error rather than silently dividing by zero"; out-of-
domain positions are clamped to the boundary colors).  This definition
follows the spec's words and is only used to compare against
`getDataColor`, which is the code's behavior. -/
def getDataColorChecked (p : Palette) (value : ℚ) : Except String Rgba :=
  match pyNormalize value p.vmin p.vmax with
  | .nan => .error "DegenerateDomain"
  | .posInf => .ok (cmapOver p.red, cmapOver p.green, cmapOver p.blue, 1)
  | .negInf => .ok (cmapUnder p.red, cmapUnder p.green, cmapUnder p.blue, 1)
  | .val t => .ok (cmapEval p.red t, cmapEval p.green t, cmapEval p.blue t, 1)

/-- The `vmin` property setter: assigns `_vmin`, touching nothing else. -/
def setVmin (p : Palette) (v : ℚ) : Palette :=
  { p with vmin := v }

/-- The `vmax` property setter: assigns `_vmax`, touching nothing else. -/
def setVmax (p : Palette) (v : ℚ) : Palette :=
  { p with vmax := v }

/-- Python `int(s)`: tolerates surrounding whitespace, raises `ValueError`
on anything that is not a signed integer literal. -/
def parseIntPy (s : List Char) : Except String Int :=
  match pyIntCore (stripChars s) with
  | some n => .ok n
  | none => .error "ValueError: invalid literal for int()"

/-- The directive-scanning loop of `ColorPalette.fromFile`, over the lines of
the file, threading the `(nan_color, name)` state initialized to
`((0,0,0,0), "generic")`.  The second branch repeats the first branch's
`line.startswith('#$nan_color')` test exactly as the source does (source
lines 171 and 176), which makes it unreachable. -/
def scanDirectives : List String → (List Int × String) → Except String (List Int × String)
  | [], st => .ok st
  | line :: rest, (nc, nm) =>
    if pyStartsWith line "#$nan_color" then
      match (splitChar ':' (line.data.drop 2)).get? 1 with
      | none => .error "IndexError: list index out of range"
      | some v => do
        let vals ← (splitChar ',' v).mapM parseIntPy
        scanDirectives rest (vals, nm)
    else if pyStartsWith line "#$nan_color" then
      match (splitChar ':' (line.data.drop 2)).get? 1 with
      | none => .error "IndexError: list index out of range"
      | some v => scanDirectives rest (nc, String.mk (stripChars v))
    else
      scanDirectives rest (nc, nm)

/-! ## `impactutils/io/table.py` -/

/-- `REQUIRED_COLUMNS` from `table.py`. -/
def REQUIRED_COLUMNS : List String := ["STATION", "LAT", "LON", "NETID"]

/-- `OPTIONAL` from `table.py`. -/
def OPTIONAL : List String :=
  ["NAME", "DISTANCE", "REFERENCE", "INTENSITY", "SOURCE", "LOC", "INSTTYPE",
   "ELEV", "NRESP", "INTENSITY_STDDEV"]

/-- `PGM_COLS` from `table.py`. -/
def PGM_COLS : List String := ["PGA", "PGV", "SA(0.3)", "SA(1.0)", "SA(3.0)"]

/-- One entry of a `CHANNEL_GROUPS` sub-list, matched with `re.match` (i.e.
anchored at the start of the string only): either the pattern
`[A-Z][A-Z]c` for a fixed final character `c`, or a literal prefix. -/
inductive ChanPat where
  | twoUpper (c : Char)
  | lit (s : String)
deriving Repr, DecidableEq

/-- `re.match` of a `ChanPat` against a channel name (prefix-anchored, as in
the source's use of `cp.match`). -/
def matchPat : ChanPat → String → Bool
  | .twoUpper c, s =>
    match s.data with
    | a :: b :: d :: _ =>
      ('A' ≤ a && a ≤ 'Z') && ('A' ≤ b && b ≤ 'Z') && (d = c : Bool)
    | _ => false
  | .lit l, s => pyStartsWith s l

/-- `CHANNEL_GROUPS` from `table.py`:
`[['[A-Z]{2}E','[A-Z]{2}N','[A-Z]{2}Z'], ['[A-Z]{2}1','[A-Z]{2}2','[A-Z]{2}Z'],
['H1','H2','Z'], ['UNK']]`. -/
def CHANNEL_GROUPS : List (List ChanPat) :=
  [[.twoUpper 'E', .twoUpper 'N', .twoUpper 'Z'],
   [.twoUpper '1', .twoUpper '2', .twoUpper 'Z'],
   [.lit "H1", .lit "H2", .lit "Z"],
   [.lit "UNK"]]

/-- `num_channels` for one channel group: how many of the group's patterns
match at least one present channel name. -/
def numMatched (channels : List String) (group : List ChanPat) : ℕ :=
  (group.filter (fun p => channels.any (fun ch => matchPat p ch))).length

/-- One iteration of the validation loop in `read_excel` (lines 169-185):
`valid` becomes true for this group if `num_channels == 1` and the table has
exactly one channel, or if `num_channels > 1` and the group's first or second
pattern (`h1_pat`/`h2_pat`) matches some channel.  The `num_channels > 1`
branch indexes `channel_group[0]` and `channel_group[1]`; a one-pattern group
can never reach it. -/
def groupValid (channels : List String) (group : List ChanPat) : Bool :=
  if numMatched channels group == 1 && channels.length == 1 then true
  else if numMatched channels group > 1 then
    match group with
    | p0 :: p1 :: _ =>
      channels.any (fun ch => matchPat p0 ch) || channels.any (fun ch => matchPat p1 ch)
    | _ => false
  else false

/-- The channel-grouping validation of `read_excel`: an empty channel set is
valid; otherwise some group must validate. -/
def channelsValid (channels : List String) : Bool :=
  if channels.length == 0 then true
  else CHANNEL_GROUPS.any (groupValid channels)

/-- Modelled from the spec's words, for comparison with `channelsValid`:
"for each scheme, count how many of its sub-patterns match at least one
present channel name; a single matching channel is valid only if it is the
sole channel in the table; two or more matching sub-patterns (i.e., a
horizontal pair present) is valid regardless of remaining channel count". -/
def specGroupValid (channels : List String) (group : List ChanPat) : Bool :=
  (numMatched channels group == 1 && channels.length == 1) ||
    numMatched channels group ≥ 2

/-- Modelled from the spec's words: "No match across all schemes → fails". -/
def specChannelsValid (channels : List String) : Bool :=
  channels.length == 0 || CHANNEL_GROUPS.any (specGroupValid channels)

/-- The raise at lines 188-190 of `table.py` (message elided of the
formatted channel list). -/
def channelGroupingCheck (channels : List String) : Except String Unit :=
  if channelsValid channels then .ok ()
  else .error "is not a valid channel grouping"

/-- The `found` flag of `read_excel` lines 193-207: seeded by the presence of
an `INTENSITY` top-level column, then set whenever one of `PGM_COLS` occurs
among some channel's sub-columns. -/
def measurementFound (hasIntensity : Bool) (channelSubcols : List (List String)) : Bool :=
  channelSubcols.foldl
    (fun f subcols => PGM_COLS.foldl (fun f2 col => f2 || subcols.contains col) f)
    hasIntensity

/-- The raise at lines 207-211 of `table.py`. -/
def measurementCheck (hasIntensity : Bool) (channelSubcols : List (List String)) :
    Except String Unit :=
  if measurementFound hasIntensity channelSubcols then .ok ()
  else .error "File must contain at least one of the following data columns"

/-- `re.search(r'\d+', s)`: value of the first maximal run of digits, `none`
when the string has no digit. -/
def firstDigitRun (s : String) : Option ℕ :=
  go s.data
where
  go : List Char → Option ℕ
    | [] => none
    | c :: rest =>
      if c.isDigit then some (digitsVal (c :: rest.takeWhile Char.isDigit))
      else go rest

/-- Greedy match of `FLOATRE = "[-+]?[0-9]*\.?[0-9]+"` anchored at the head
of the character list, returning the float value of the match: an optional
sign, a maximal digit run, then — only if a dot immediately followed by a
digit comes next — the dot and a second maximal digit run.  The trailing
`[0-9]+` of the pattern forces at least one digit overall. -/
def floatRunAt (cs : List Char) : Option ℚ :=
  let sgn : ℚ × List Char :=
    match cs with
    | '-' :: r => (-1, r)
    | '+' :: r => (1, r)
    | r => (1, r)
  let d1 := sgn.2.takeWhile Char.isDigit
  let rest1 := sgn.2.drop d1.length
  match rest1 with
  | '.' :: c :: r2 =>
    if c.isDigit then
      let d2 := c :: r2.takeWhile Char.isDigit
      some (sgn.1 * ((digitsVal d1 : ℚ) + (digitsVal d2 : ℚ) / (10 : ℚ) ^ d2.length))
    else if d1.isEmpty then none
    else some (sgn.1 * (digitsVal d1 : ℚ))
  | _ =>
    if d1.isEmpty then none else some (sgn.1 * (digitsVal d1 : ℚ))

/-- `float(re.search(FLOATRE, s).group())`: leftmost `FLOATRE` match, `none`
when there is no match anywhere (in the source an `AttributeError` that the
surrounding `try`/`except` turns into a `continue`). -/
def extractFloat (s : String) : Option ℚ :=
  go s.data
where
  go : List Char → Option ℚ
    | [] => none
    | c :: rest =>
      match floatRunAt (c :: rest) with
      | some q => some q
      | none => go rest

/-- The `for imt in imtlist` loop of `_translate_imt`: skip entries that do
not start with `"SA"`, skip entries whose `FLOATRE` extraction fails, and
return the first entry whose extracted period equals `period`.  When the loop
finishes without a hit, `newimt` was never assigned and the subsequent
`return newimt` raises `UnboundLocalError` — modelled as `none`. -/
def findSA (period : ℚ) : List String → Option String
  | [] => none
  | imt :: rest =>
    if !pyStartsWith imt "SA" then findSA period rest
    else
      match extractFloat imt with
      | none => findSA period rest
      | some p => if p == period then some imt else findSA period rest

/-- `_translate_imt(oldimt, imtlist)` from `table.py`.  `none` models the
call raising (the `UnboundLocalError` path of `findSA`); `some` is the
returned name. -/
def translate_imt (oldimt : String) (imtlist : List String) : Option String :=
  if pyToUpper oldimt == "PGA" || pyToUpper oldimt == "PGV" then some (pyToUpper oldimt)
  else
    match firstDigitRun oldimt with
    | some n => findSA ((n : ℚ) / 10) imtlist
    | none => some ""

/-- `CHANNEL_PATTERNS` from `table.py`, used by `_get_channels` via
`re.search` on fully anchored patterns (`^...$`), i.e. whole-string matches.
The Python character classes are written with commas
(`[H,B]`, `[H,L,N]`, `[E,N,Z,1,2,3]`, `[1,2]`), so the literal comma is a
member of each class; that is reproduced here. -/
def matchesChannelPattern (s : String) : Bool :=
  (match s.data with
   | [a, b, c] =>
     ['H', ',', 'B'].contains a && ['H', ',', 'L', 'N'].contains b &&
       ['E', ',', 'N', 'Z', '1', '2', '3'].contains c
   | _ => false) ||
  (match s.data with
   | [a, b] => (a = 'H' : Bool) && ['1', ',', '2'].contains b
   | _ => false) ||
  (s == "Z")

/-- `_get_channels(columns)` from `table.py`: the columns matching one of
`CHANNEL_PATTERNS`. -/
def get_channels (columns : List String) : List String :=
  columns.filter matchesChannelPattern

/-- Fixed-point decimal formatting, as used by the writers' f-strings
(`:.4f`, `:.1f`, `:.2f`).  Ties round half-up here where IEEE formatting
rounds half-to-even; no property proved below depends on the tie direction,
only on the formatting being a function of the value. -/
def formatFixed (decimals : ℕ) (q : ℚ) : String :=
  let n : ℤ := round (q * (10 : ℚ) ^ decimals)
  let sign := if n < 0 then "-" else ""
  let m := n.natAbs
  let ip := m / 10 ^ decimals
  let fp := m % 10 ^ decimals
  let fpStr := toString fp
  let pad := String.mk (List.replicate (decimals - fpStr.length) '0')
  if decimals = 0 then sign ++ toString ip
  else sign ++ toString ip ++ "." ++ pad ++ fpStr

/-- One row of a normalized station table as produced by `read_excel`
(channel-grouped shape).  In pandas a column exists for every row of the
frame or for none, so an `Option` field being `none` models the column being
absent from the table (for the numeric measurement fields, `none` also
stands for an empty/NaN cell, which the writers treat like absence).
`chans` maps each channel top-level header to its sub-columns and their
values (`none` = NaN). -/
structure StationRow where
  STATION : String
  NETID : String
  LAT : ℚ
  LON : ℚ
  NAME : Option String := none
  DISTANCE : Option ℚ := none
  INTENSITY : Option ℚ := none
  NRESP : Option Int := none
  INTENSITY_STDDEV : Option ℚ := none
  SOURCE : Option String := none
  LOC : Option String := none
  INSTTYPE : Option String := none
  ELEV : Option ℚ := none
  PROVIDER : Option String := none
  INSTRUMENT : Option String := none
  SERIAL : Option String := none
  PERIOD : Option String := none
  DAMPING : Option String := none
  SENSITIVITY : Option String := none
  SOURCE_FORMAT : Option String := none
  STRUCTURE : Option String := none
  chans : List (String × List (String × Option ℚ)) := []
deriving Repr, DecidableEq

/-- A normalized station table: the top-level column headers with their
sub-headers (`df.columns`), and the rows. -/
structure StationFrame where
  columns : List (String × List String)
  rows : List StationRow
deriving Repr, DecidableEq

/-- First-match association lookup, as a pandas label lookup. -/
def lookupCol (sub : List (String × α)) (key : String) : Option α :=
  match sub.find? (fun kv => kv.1 == key) with
  | some kv => some kv.2
  | none => none

/-- Insert into an ascending list (code-point lexicographic order, which is
Python's string ordering). -/
def insertStr (s : String) : List String → List String
  | [] => [s]
  | x :: t => if x.data < s.data then x :: insertStr s t else s :: x :: t

/-- `sorted(list(channels))` — ascending insertion sort (kernel-reducible,
unlike `List.mergeSort`; agrees with Python `sorted` on the duplicate-free
channel sets used here). -/
def sortStrings (l : List String) : List String :=
  l.foldr insertStr []

/-- The channel list both writers compute from the frame's top-level headers:
`(top_headers - REQUIRED_COLUMNS - OPTIONAL)` filtered through
`_get_channels`, then sorted inside the row loop. -/
def writerChannels (frame : StationFrame) : List String :=
  sortStrings (get_channels
    ((frame.columns.map Prod.fst).filter
      (fun h => !REQUIRED_COLUMNS.contains h && !OPTIONAL.contains h)))

/-- The station code both writers compute: strip, then prefix `netid.` unless
the code already starts with the network id. -/
def stationCodeOf (row : StationRow) : String :=
  let stationcode := pyStrip row.STATION
  let netid := pyStrip row.NETID
  if pyStartsWith stationcode netid then stationcode
  else netid ++ "." ++ stationcode

/-- The five canonical output measurement kinds both writers loop over. -/
def pgmKinds : List String := ["pga", "pgv", "psa03", "psa10", "psa30"]

/-- `<pga flag="0" value="..."/>`-style measurement element. -/
structure PgmEl where
  name : String
  flag : String
  value : String
deriving Repr, DecidableEq

/-- `<comp name=... orientation=...>` element. -/
structure CompEl where
  name : String
  orientation : String
  pgms : List PgmEl
deriving Repr, DecidableEq

/-- `<station>` element: ordered attribute list plus `comp` children. -/
structure StationEl where
  attrs : List (String × String)
  comps : List CompEl
deriving Repr, DecidableEq

/-- The whole XML document `dataframe_to_xml` writes:
`<shakemap-data code_version="3.5" map_version="3">` with one `stationlist`
child carrying `created` (and optionally `reference`) and the station
elements. -/
structure ShakemapDoc where
  code_version : String
  map_version : String
  created : ℕ
  reference : Option String
  stations : List StationEl
deriving Repr, DecidableEq

/-- The per-kind inner loop shared by both writers (lines 496-507 and
355-365 of `table.py`): translate the kind via `_translate_imt` (whose
`UnboundLocalError` propagates), skip kinds whose translated name is not a
sub-column (`c1`) or whose value is NaN (`c2`), and emit the remaining ones
with the old-style name, flag `0` and the value formatted to 4 decimals. -/
def buildPgms (sub : List (String × Option ℚ)) : List String → Except String (List PgmEl)
  | [] => .ok []
  | pgm :: rest =>
    match translate_imt pgm (sub.map Prod.fst) with
    | none => .error "UnboundLocalError: local variable referenced before assignment"
    | some newpgm =>
      if !(sub.map Prod.fst).contains newpgm then buildPgms sub rest
      else
        match lookupCol sub newpgm with
        | some (some v) => do
          let tail ← buildPgms sub rest
          .ok ({ name := pgm, flag := "0", value := formatFixed 4 v } :: tail)
        | _ => buildPgms sub rest

/-- `orientation`: `'h'` when the channel name ends in 1/2/E/N, else `'z'`. -/
def orientationOf (channel : String) : String :=
  if ['1', '2', 'E', 'N'].contains (channel.data.getLastD ' ') then "h" else "z"

/-- The per-channel loop of `dataframe_to_xml` (grouped-channel branch,
lines 479-507): one `comp` element per sorted channel.  `row[channel]`
raises `KeyError` when the row has no such group. -/
def buildComps (row : StationRow) : List String → Except String (List CompEl)
  | [] => .ok []
  | ch :: rest =>
    match lookupCol row.chans ch with
    | none => .error "KeyError"
    | some sub => do
      let pgms ← buildPgms sub pgmKinds
      let tail ← buildComps row rest
      .ok ({ name := pyToUpper ch, orientation := orientationOf ch, pgms := pgms } :: tail)

/-- The XML station attributes, in the order the source assigns them
(lines 449-473): `code`, `lat`, `lon`, then each optional column when
present. -/
def stationAttrs (row : StationRow) (stationcode : String) : List (String × String) :=
  [("code", stationcode),
   ("lat", formatFixed 4 row.LAT),
   ("lon", formatFixed 4 row.LON)] ++
  (match row.NAME with | some s => [("name", pyStrip s)] | none => []) ++
  [("netid", pyStrip row.NETID)] ++
  (match row.DISTANCE with | some q => [("dist", formatFixed 1 q)] | none => []) ++
  (match row.INTENSITY with | some q => [("intensity", formatFixed 1 q)] | none => []) ++
  (match row.NRESP with | some n => [("nresp", toString n)] | none => []) ++
  (match row.INTENSITY_STDDEV with
   | some q => [("intensity_stddev", formatFixed 2 q)] | none => []) ++
  (match row.SOURCE with | some s => [("source", pyStrip s)] | none => []) ++
  (match row.LOC with | some s => [("loc", pyStrip s)] | none => []) ++
  (match row.INSTTYPE with | some s => [("insttype", pyStrip s)] | none => []) ++
  (match row.ELEV with | some q => [("elev", formatFixed 1 q)] | none => [])

/-- The row loop of `dataframe_to_xml` (the grouped-channel branch, which is
the shape `read_excel` produces — such rows have no `imt` column): skip rows
whose station code was already processed, otherwise emit a station element
and remember the code. -/
def xmlStations (channels : List String) :
    List StationRow → List String → Except String (List StationEl)
  | [], _ => .ok []
  | row :: rest, processed =>
    let stationcode := stationCodeOf row
    if processed.contains stationcode then xmlStations channels rest processed
    else do
      let comps ← buildComps row channels
      let tail ← xmlStations channels rest (processed ++ [stationcode])
      .ok ({ attrs := stationAttrs row stationcode, comps := comps } :: tail)

/-- `dataframe_to_xml(df, xmlfile, reference)` from `table.py`, as the
document it serializes to `xmlfile`; `create_time` is the `int(time.time())`
sampled during the call.  A `.error` models an exception propagating before
anything is written. -/
def dataframe_to_xml (frame : StationFrame) (reference : Option String)
    (create_time : ℕ) : Except String ShakemapDoc :=
  (xmlStations (writerChannels frame) frame.rows []).map
    (fun sts =>
      { code_version := "3.5", map_version := "3", created := create_time,
        reference := reference, stations := sts })

/-- One `{'name': ..., 'flag': 0, 'value': ...}` amplitude entry of the JSON
writer. -/
structure Amplitude where
  name : String
  flag : ℕ
  value : String
deriving Repr, DecidableEq

/-- One GeoJSON feature of `dataframe_to_json`: Point geometry coordinates
(lat, lon, elev as strings), the ordered properties map, and the per-channel
amplitude lists keyed by upper-cased channel name. -/
structure Feature where
  coordinates : List String
  properties : List (String × String)
  channels : List (String × List Amplitude)
deriving Repr, DecidableEq

/-- The document `dataframe_to_json` serializes: FeatureCollection with the
fixed software block, the sampled `process_time`, and the features. -/
structure GeoJsonDoc where
  software_name : String
  software_version : String
  process_time : ℕ
  features : List Feature
deriving Repr, DecidableEq

/-- The Point geometry of one feature (lines 290-298 of `table.py`):
`tmprow['ELEV']` is read unconditionally, so a row without an `ELEV` column
raises `KeyError` here. -/
def jsonGeometry (row : StationRow) : Except String (List String) :=
  let lat := formatFixed 4 row.LAT
  let lon := formatFixed 4 row.LON
  match row.ELEV with
  | none => .error "KeyError: ELEV"
  | some e => .ok [lat, lon, formatFixed 1 e]

/-- The properties dict of one feature, in the source's insertion order
(lines 301-342): note the unconditional `location` (default `'--'`) and
`serial` (default `'None'`) entries. -/
def jsonProps (row : StationRow) (stationcode : String) : List (String × String) :=
  [("code", String.mk ((splitChar '.' stationcode.data).getLastD []))] ++
  (match row.NAME with | some s => [("name", pyStrip s)] | none => []) ++
  [("network", pyStrip row.NETID)] ++
  (match row.DISTANCE with | some q => [("distance", formatFixed 1 q)] | none => []) ++
  (match row.INTENSITY with | some q => [("intensity", formatFixed 1 q)] | none => []) ++
  (match row.NRESP with | some n => [("nresp", toString n)] | none => []) ++
  (match row.INTENSITY_STDDEV with
   | some q => [("intensity_stddev", formatFixed 2 q)] | none => []) ++
  (match row.SOURCE with | some s => [("source", pyStrip s)] | none => []) ++
  [("location", (row.LOC.map pyStrip).getD "--")] ++
  (match row.INSTTYPE with | some s => [("type", pyStrip s)] | none => []) ++
  (match row.PROVIDER with | some s => [("provider", pyStrip s)] | none => []) ++
  (match row.INSTRUMENT with | some s => [("instrument", pyStrip s)] | none => []) ++
  [("serial", (row.SERIAL.map pyStrip).getD "None")] ++
  (match row.PERIOD with | some s => [("period", pyStrip s)] | none => []) ++
  (match row.DAMPING with | some s => [("damping", pyStrip s)] | none => []) ++
  (match row.SENSITIVITY with | some s => [("sensitivity", pyStrip s)] | none => []) ++
  (match row.SOURCE_FORMAT with | some s => [("source_format", pyStrip s)] | none => []) ++
  (match row.STRUCTURE with | some s => [("structure", pyStrip s)] | none => [])

/-- The per-channel amplitude loop of the JSON writer (lines 350-365), the
same skip logic as the XML writer but emitting amplitude dicts. -/
def jsonChannels (row : StationRow) :
    List String → Except String (List (String × List Amplitude))
  | [] => .ok []
  | ch :: rest =>
    match lookupCol row.chans ch with
    | none => .error "KeyError"
    | some sub => do
      let pgms ← buildPgms sub pgmKinds
      let tail ← jsonChannels row rest
      .ok ((pyToUpper ch, pgms.map (fun p => { name := p.name, flag := 0, value := p.value })) :: tail)

/-- The row loop of `dataframe_to_json` (lines 267-367): geometry is built
before properties and channels, and a repeated station code is skipped. -/
def jsonFeatures (channels : List String) :
    List StationRow → List String → Except String (List Feature)
  | [], _ => .ok []
  | row :: rest, processed =>
    let stationcode := stationCodeOf row
    if processed.contains stationcode then jsonFeatures channels rest processed
    else do
      let coords ← jsonGeometry row
      let chans ← jsonChannels row channels
      let tail ← jsonFeatures channels rest (processed ++ [stationcode])
      .ok ({ coordinates := coords, properties := jsonProps row stationcode,
             channels := chans } :: tail)

/-- `dataframe_to_json(df, jsonfile)` from `table.py`: on success the
document is dumped to the fixed file name `'test.json'` (the `jsonfile`
argument is ignored by the source), which the `.ok` payload records; a
`.error` models the exception propagating before the output file is opened,
so nothing is written. -/
def dataframe_to_json (frame : StationFrame) (process_time : ℕ) :
    Except String (String × GeoJsonDoc) :=
  (jsonFeatures (writerChannels frame) frame.rows []).map
    (fun feats =>
      ("test.json",
       { software_name := "impactutils", software_version := "1.0.0",
         process_time := process_time, features := feats }))

/-! ## Helper lemmas -/

lemma foldl_min_eq (l : List ℚ) (a : ℚ) (h : ∀ b ∈ l, a ≤ b) :
    l.foldl min a = a := by
  induction l generalizing a with
  | nil => rfl
  | cons b t ih =>
    have hab : a ≤ b := h b (by simp)
    have : min a b = a := min_eq_left hab
    simp only [List.foldl_cons, this]
    exact ih a (fun c hc => h c (by simp [hc]))

lemma npMin_sorted (a : ℚ) (l : List ℚ) (h : List.Sorted (· ≤ ·) (a :: l)) :
    npMin (a :: l) = a :=
  foldl_min_eq l a (List.sorted_cons.mp h).1

lemma foldl_max_sorted (l : List ℚ) (a : ℚ) (h : List.Sorted (· ≤ ·) (a :: l)) :
    l.foldl max a = l.getLastD a := by
  induction l generalizing a with
  | nil => rfl
  | cons b t ih =>
    have hab : a ≤ b := (List.sorted_cons.mp h).1 b (by simp)
    have hbt : List.Sorted (· ≤ ·) (b :: t) := (List.sorted_cons.mp h).2
    simp only [List.foldl_cons, max_eq_right hab, List.getLastD_cons]
    exact ih b hbt

lemma npMax_sorted (a : ℚ) (l : List ℚ) (h : List.Sorted (· ≤ ·) (a :: l)) :
    npMax (a :: l) = l.getLastD a :=
  foldl_max_sorted l a h

lemma getLastD_default_of_ne_nil (l : List α) (h : l ≠ []) (d d' : α) :
    l.getLastD d = l.getLastD d' := by
  cases l with
  | nil => exact absurd rfl h
  | cons x t => simp only [List.getLastD_cons]

lemma getLastD_map_of_ne_nil (f : α → β) :
    ∀ (l : List α), l ≠ [] → ∀ (d : β) (d' : α),
      (l.map f).getLastD d = f (l.getLastD d') := by
  intro l
  induction l with
  | nil => intro h; exact absurd rfl h
  | cons x t ih =>
    intro _ d d'
    cases t with
    | nil => rfl
    | cons y u =>
      have e1 : (x :: y :: u).getLastD d' = (y :: u).getLastD x :=
        List.getLastD_cons _ _ _
      rw [List.map_cons, List.getLastD_cons, e1]
      exact ih (by simp) (f x) x

lemma getLastD_zipWith (f : α → β → γ) :
    ∀ (as : List α) (bs : List β), as.length = bs.length → as ≠ [] →
      ∀ (d : γ) (da : α) (db : β),
        (List.zipWith f as bs).getLastD d = f (as.getLastD da) (bs.getLastD db) := by
  intro as
  induction as with
  | nil => intro bs _ h; exact absurd rfl h
  | cons a atl ih =>
    intro bs hlen _ d da db
    cases bs with
    | nil => simp at hlen
    | cons b btl =>
      cases atl with
      | nil =>
        have : btl = [] := by simpa using hlen.symm
        subst this
        rfl
      | cons a2 atl2 =>
        cases btl with
        | nil => simp at hlen
        | cons b2 btl2 =>
          have e1 : (a :: a2 :: atl2).getLastD da = (a2 :: atl2).getLastD a :=
            List.getLastD_cons _ _ _
          have e2 : (b :: b2 :: btl2).getLastD db = (b2 :: btl2).getLastD b :=
            List.getLastD_cons _ _ _
          rw [List.zipWith_cons_cons, List.getLastD_cons, e1, e2]
          exact ih (b2 :: btl2) (by simpa using hlen) (by simp) (f a b) a b

lemma getLastD_concat_eq (l : List α) (e : α) :
    ∀ d : α, (l ++ [e]).getLastD d = e := by
  induction l with
  | nil => intro d; rfl
  | cons x t ih =>
    intro d
    simp only [List.cons_append, List.getLastD_cons]
    exact ih x

lemma foldl_or_eq (p : α → Bool) :
    ∀ (l : List α) (b : Bool), l.foldl (fun acc x => acc || p x) b = (b || l.any p) := by
  intro l
  induction l with
  | nil => intro b; simp
  | cons x t ih =>
    intro b
    simp only [List.foldl_cons, List.any_cons, ih, Bool.or_assoc]

lemma cmapEval_cons_of_le (r : ℚ × ℚ × ℚ) (rest : List (ℚ × ℚ × ℚ)) (t : ℚ)
    (h : t ≤ r.1) : cmapEval (r :: rest) t = r.2.2 := by
  simp [cmapEval, h]

lemma cmapEval_cons_of_last (r : ℚ × ℚ × ℚ) (rest : List (ℚ × ℚ × ℚ)) (t : ℚ)
    (h1 : ¬ t ≤ r.1) (h2 : (rest.getLastD r).1 ≤ t) :
    cmapEval (r :: rest) t = (rest.getLastD r).2.1 := by
  have h2' : (rest.getLast?.getD r).1 ≤ t := by
    rw [← List.getLastD_eq_getLast?]; exact h2
  simp [cmapEval, h1, h2', List.getLastD_eq_getLast?]

lemma buildChannel_cons (sel : Rgb → ℚ) (x0 : ℚ) (xs : List ℚ) (c0 : Rgb)
    (c1s : List Rgb) (d0 : Rgb) (d0s : List Rgb) :
    buildChannel sel (x0 :: xs) (c0 :: c1s) (d0 :: d0s) =
      (x0, sel c0 / 255, sel d0 / 255) :: buildChannel sel xs c1s d0s := rfl

lemma buildChannel_getLastD (sel : Rgb → ℚ) (x : List ℚ) (r1t r0t : List Rgb)
    (hx : x ≠ []) (h1 : x.length = r1t.length) (h2 : r1t.length = r0t.length)
    (d : ℚ × ℚ × ℚ) :
    (buildChannel sel x r1t r0t).getLastD d =
      (x.getLastD 0, sel (r1t.getLastD (0, 0, 0)) / 255,
        sel (r0t.getLastD (0, 0, 0)) / 255) := by
  have hzip : r1t.zip r0t = List.zipWith Prod.mk r1t r0t := List.zip_eq_zipWith r1t r0t
  have hzlen : (r1t.zip r0t).length = r1t.length := by
    rw [List.length_zip, h2, min_self]
  have hr1ne : r1t ≠ [] := by
    intro hnil
    apply hx
    have : x.length = 0 := by rw [h1, hnil]; rfl
    exact List.length_eq_zero.mp this
  have hpair : (r1t.zip r0t).getLastD ((0, 0, 0), (0, 0, 0)) =
      (r1t.getLastD (0, 0, 0), r0t.getLastD (0, 0, 0)) := by
    rw [hzip]
    exact getLastD_zipWith Prod.mk r1t r0t h2 hr1ne _ _ _
  unfold buildChannel
  rw [getLastD_zipWith _ x (r1t.zip r0t) (h1.trans hzlen.symm) hx d 0
    ((0, 0, 0), (0, 0, 0)), hpair]

lemma measurementFound_eq :
    ∀ (subs : List (List String)) (b : Bool),
      measurementFound b subs =
        (b || subs.any (fun sub => PGM_COLS.any (fun col => sub.contains col))) := by
  intro subs
  induction subs with
  | nil => intro b; simp [measurementFound]
  | cons s t ih =>
    intro b
    have h1 : measurementFound b (s :: t) =
        measurementFound (b || PGM_COLS.any (fun col => s.contains col)) t := by
      simp only [measurementFound, List.foldl_cons]
      rw [foldl_or_eq]
    rw [h1, ih, List.any_cons, Bool.or_assoc]

lemma nat_beq_eq_decide (n m : ℕ) : (n == m) = decide (n = m) := by
  by_cases h : n = m <;> simp [h]

lemma groupValid_eq_spec3 (channels : List String) (p0 p1 p2 : ChanPat) :
    groupValid channels [p0, p1, p2] = specGroupValid channels [p0, p1, p2] := by
  unfold groupValid specGroupValid numMatched
  cases h0 : channels.any (fun ch => matchPat p0 ch) <;>
    cases h1 : channels.any (fun ch => matchPat p1 ch) <;>
      cases h2 : channels.any (fun ch => matchPat p2 ch) <;>
        simp [List.filter, h0, h1, h2, nat_beq_eq_decide]

lemma groupValid_eq_spec1 (channels : List String) (p : ChanPat) :
    groupValid channels [p] = specGroupValid channels [p] := by
  unfold groupValid specGroupValid numMatched
  cases h0 : channels.any (fun ch => matchPat p ch) <;>
    simp [List.filter, h0, nat_beq_eq_decide]

/-- Boundary behavior of one constructed channel table: with first position
0 and last position 1, the colormap returns the leaving value of the first
row (`rgb0`'s head) at 0 and the arriving value of the last row (`rgb1`'s
last entry) at 1. -/
lemma cmapEval_buildChannel_boundaries (sel : Rgb → ℚ) (x0 : ℚ) (xs : List ℚ)
    (c0 : Rgb) (c1s : List Rgb) (r0h : Rgb) (r0s : List Rgb)
    (hx0 : x0 = 0)
    (hxlast : (x0 :: xs).getLastD 0 = 1)
    (hlen1 : (x0 :: xs).length = (c0 :: c1s).length)
    (hlen2 : (c0 :: c1s).length = (r0h :: r0s).length)
    (hc1ne : c1s ≠ []) :
    cmapEval (buildChannel sel (x0 :: xs) (c0 :: c1s) (r0h :: r0s)) 0 = sel r0h / 255 ∧
    cmapEval (buildChannel sel (x0 :: xs) (c0 :: c1s) (r0h :: r0s)) 1 =
      sel (c1s.getLastD (0, 0, 0)) / 255 := by
  have hrow := buildChannel_getLastD sel (x0 :: xs) (c0 :: c1s) (r0h :: r0s)
    (by simp) hlen1 hlen2 (0, 0, 0)
  rw [buildChannel_cons, List.getLastD_cons] at hrow
  constructor
  · rw [buildChannel_cons]
    exact cmapEval_cons_of_le _ _ _ (le_of_eq hx0.symm)
  · rw [buildChannel_cons]
    have h1 : ¬ (1 : ℚ) ≤ x0 := by rw [hx0]; norm_num
    have h2 : ((buildChannel sel xs c1s r0s).getLastD (x0, sel c0 / 255, sel r0h / 255)).1 ≤ 1 := by
      rw [hrow]
      show (x0 :: xs).getLastD 0 ≤ 1
      rw [hxlast]
    rw [cmapEval_cons_of_last _ _ _ h1 h2, hrow]
    show sel ((c0 :: c1s).getLastD (0, 0, 0)) / 255 = sel (c1s.getLastD (0, 0, 0)) / 255
    rw [List.getLastD_cons]
    rw [getLastD_default_of_ne_nil c1s hc1ne c0 (0, 0, 0)]

/-! ## Claim theorems -/

/-- C2 (code bug): with `z0`, `z1` of length 3 and `rgb0`, `rgb1` of length 4
the four sequences are not all of the same length, yet `ColorPalette.__init__`
does not raise: the chained comparison `len(z0) != len(z1) != len(rgb0) !=
len(rgb1)` short-circuits to false at `len(z0) != len(z1)`, so the
construction proceeds, contradicting the constructor's own "validate that
lengths are all identical" comment and the claimed `LengthMismatch`
behavior. -/
theorem lengthCheck_accepts_length_mismatch :
    init "test" [0, 1, 2] [1, 2, 3]
        [(0, 0, 0), (1, 1, 1), (2, 2, 2), (3, 3, 3)]
        [(4, 4, 4), (5, 5, 5), (6, 6, 6), (7, 7, 7)] none =
      .ok (makePalette "test" [0, 1, 2] [1, 2, 3]
        [(0, 0, 0), (1, 1, 1), (2, 2, 2), (3, 3, 3)]
        [(4, 4, 4), (5, 5, 5), (6, 6, 6), (7, 7, 7)] none) ∧
    allLengthsEqual 3 3 4 4 = false := by
  exact ⟨rfl, rfl⟩

/-- C4 (code bug): scanning a palette file whose lines contain a
`#$nan_color` directive and a `#$name: test` directive leaves the name at
its default `"generic"`: the branch that would parse the name repeats the
`startswith('#$nan_color')` test of the first branch (source lines 171 and
176), so it can never fire, while the nan-color directive itself is parsed
normally. -/
theorem name_directive_is_unreachable :
    scanDirectives ["#$nan_color: 1,2,3,4", "#$name: test"] ([0, 0, 0, 0], "generic") =
      .ok ([1, 2, 3, 4], "generic") := by
  rfl

/-- C8 (code bug): `_translate_imt('psa03', ...)` against a channel whose
columns are `PGA`, `PGV`, `PSA03` — a legal layout per `read_excel`'s own
docstring — raises `UnboundLocalError` (modelled as `none`): no column
starting with `"SA"` exists, so the loop never assigns `newimt`, and the
legacy `PSA03` spelling is never matched.  Translation works only for
`SA(n.n)`-style columns, as the second conjunct shows. -/
theorem translate_imt_raises_on_legacy_columns :
    translate_imt "psa03" ["PGA", "PGV", "PSA03"] = none ∧
    translate_imt "psa03" ["PGA", "PGV", "SA(0.3)"] = some "SA(0.3)" := by
  exact ⟨rfl, by with_unfolding_all rfl⟩

/-- C5: the `vmin`/`vmax` setters leave the three per-channel interpolation
tables (and the colormap built from them) untouched, and `getDataColor` on
the updated palette is exactly the original palette's color function
composed with the re-scaled normalization. -/
theorem setters_only_rescale_normalization (p : Palette) (a b v : ℚ) :
    (setVmin p a).red = p.red ∧ (setVmin p a).green = p.green ∧
    (setVmin p a).blue = p.blue ∧ (setVmin p a).nan_color = p.nan_color ∧
    (setVmax p b).red = p.red ∧ (setVmax p b).green = p.green ∧
    (setVmax p b).blue = p.blue ∧ (setVmax p b).nan_color = p.nan_color ∧
    getDataColor (setVmin p a) v = applyCdict p (pyNormalize v a p.vmax) ∧
    getDataColor (setVmax p b) v = applyCdict p (pyNormalize v p.vmin b) := by
  have key1 : ∀ t?, applyCdict (setVmin p a) t? = applyCdict p t? := by
    intro t?; cases t? <;> rfl
  have key2 : ∀ t?, applyCdict (setVmax p b) t? = applyCdict p t? := by
    intro t?; cases t? <;> rfl
  refine ⟨rfl, rfl, rfl, rfl, rfl, rfl, rfl, rfl, ?_, ?_⟩
  · rw [getDataColor, key1]; rfl
  · rw [getDataColor, key2]; rfl

/-- C9: `dataframe_to_xml` is deterministic given the dataframe and the
reference string — the output documents for two calls differ only in the
value of the `created` timestamp attribute on the `stationlist` element
(including the case where both calls raise). -/
theorem xml_writer_deterministic_up_to_created (frame : StationFrame)
    (reference : Option String) (t1 t2 : ℕ) :
    dataframe_to_xml frame reference t1 =
      (dataframe_to_xml frame reference t2).map (fun d => { d with created := t1 }) := by
  unfold dataframe_to_xml
  cases xmlStations (writerChannels frame) frame.rows [] <;> rfl

/-- C3 counterexample, inside the claim's own scope (`vmin = vmax`, queried
value with NaN normalized position): take a palette soundly constructed on
`[0, 2]`, rescale `vmax` down to `vmin = 0` with the property setter, and
query at `0`, whose position is `0/0` = NaN.  `getDataColor` does not fail —
the colormap's bad-value handling silently returns the nan color — whereas
the spec-modelled guarded query returns the demanded `DegenerateDomain`
error.  The code has no such guard. -/
theorem getDataColor_degenerate_no_error :
    getDataColor (setVmax (makePalette "c" [0, 1] [1, 2] [(10, 20, 30), (40, 50, 60)]
        [(70, 80, 90), (200, 0, 0)] (some (0, 0, 0, 0))) 0) 0 = (0, 0, 0, 0) ∧
    getDataColorChecked (setVmax (makePalette "c" [0, 1] [1, 2] [(10, 20, 30), (40, 50, 60)]
        [(70, 80, 90), (200, 0, 0)] (some (0, 0, 0, 0))) 0) 0 = .error "DegenerateDomain" := by
  constructor <;> with_unfolding_all rfl

/-- C3 amended: for a palette soundly constructed (`min(z0) ≠ max(z1)`, so
its breakpoint table is finite) whose `vmax` is then rescaled to `vmin`,
querying at `vmin` — the value whose normalized position is `0/0` = NaN —
raises no `DegenerateDomain` (nor any other) error: the division silently
yields NaN and the colormap's bad-value handling returns the palette's nan
color.  (A value ≠ `vmin` instead normalizes to `±inf` and is clamped to
the over/under boundary color; a palette *constructed* with
`min(z0) = max(z1)` makes matplotlib itself raise a generic `ValueError`
from the NaN breakpoint positions — still not a `DegenerateDomain`
error.) -/
theorem getDataColor_degenerate_returns_nan_color
    (name : String) (z0 z1 : List ℚ) (rgb0 rgb1 : List Rgb) (nc : Option Rgba)
    (hnd : npMin z0 ≠ npMax z1) :
    getDataColor (setVmax (makePalette name z0 z1 rgb0 rgb1 nc) (npMin z0))
        (npMin z0) = setBad nc := by
  show applyCdict (setVmax (makePalette name z0 z1 rgb0 rgb1 nc) (npMin z0))
      (pyNormalize (npMin z0) (npMin z0) (npMin z0)) = setBad nc
  have h : pyNormalize (npMin z0) (npMin z0) (npMin z0) = .nan := by
    simp [pyNormalize]
  rw [h]
  rfl

/-- Witness for the amended C3 statement at a concrete rescaled palette. -/
theorem getDataColor_degenerate_returns_nan_color_witness :
    getDataColor (setVmax (makePalette "w2" [0, 1] [1, 2] [(10, 20, 30), (40, 50, 60)]
        [(70, 80, 90), (200, 0, 0)] (some (0, 0, 0, 1))) (npMin [0, 1])) (npMin [0, 1]) =
      setBad (some (0, 0, 0, 1)) :=
  getDataColor_degenerate_returns_nan_color "w2" [0, 1] [1, 2]
    [(10, 20, 30), (40, 50, 60)] [(70, 80, 90), (200, 0, 0)] (some (0, 0, 0, 1))
    (by norm_num [npMin, npMax, List.foldl_cons, List.foldl_nil, min_def, max_def])

/-- C6: the channel-grouping validation of `read_excel` agrees with the
spec's description for every channel set (the code's extra
`has_h1 or has_h2` test is redundant because two matching sub-patterns of a
three-pattern scheme always include one of the first two), and on the two
concrete instances: `{HHE, HHN, HHZ}` is accepted, `{HHE, XX9}` is rejected
with the invalid-channel-grouping error. -/
theorem channel_grouping_validation_correct :
    (∀ channels : List String, channelsValid channels = specChannelsValid channels) ∧
    channelGroupingCheck ["HHE", "HHN", "HHZ"] = .ok () ∧
    channelGroupingCheck ["HHE", "XX9"] = .error "is not a valid channel grouping" := by
  refine ⟨?_, rfl, rfl⟩
  intro channels
  unfold channelsValid specChannelsValid
  cases h : (channels.length == 0) <;>
    simp [h, CHANNEL_GROUPS, groupValid_eq_spec3, groupValid_eq_spec1]

/-- C7: `read_excel`'s no-measurement-data failure happens iff the table has
no `INTENSITY` top-level column and none of the recognized peak-ground-motion
columns (`PGM_COLS`) under any channel; otherwise the read passes this
check. -/
theorem measurement_check_error_iff (hasIntensity : Bool)
    (channelSubcols : List (List String)) :
    measurementCheck hasIntensity channelSubcols =
        .error "File must contain at least one of the following data columns" ↔
      (hasIntensity = false ∧
        ∀ sub ∈ channelSubcols, ∀ col ∈ PGM_COLS, sub.contains col = false) := by
  unfold measurementCheck
  rw [measurementFound_eq]
  have hiff : ∀ c : Bool,
      ((if c then (.ok () : Except String Unit)
        else .error "File must contain at least one of the following data columns") =
          .error "File must contain at least one of the following data columns") ↔
        c = false := by
    intro c; cases c <;> simp
  rw [hiff]
  simp [Bool.or_eq_false_iff, List.any_eq_false]

/-- C10: for a nonempty dataframe without an `ELEV` column (pandas column
presence is table-wide, so every row lacks it), `dataframe_to_json` raises a
`KeyError` while building the first feature's Point geometry — the
unconditional `tmprow['ELEV']` read at line 294 — and therefore never
reaches the output-file write: elevation is effectively required for JSON
export despite being listed among the optional columns. -/
theorem json_writer_requires_elev (frame : StationFrame) (ptime : ℕ)
    (hne : frame.rows ≠ [])
    (helev : ∀ r ∈ frame.rows, r.ELEV = none) :
    dataframe_to_json frame ptime = .error "KeyError: ELEV" := by
  obtain ⟨row, rest, hrows⟩ := List.exists_cons_of_ne_nil hne
  have hrowelev : row.ELEV = none := helev row (by rw [hrows]; simp)
  unfold dataframe_to_json
  rw [hrows]
  simp [jsonFeatures, jsonGeometry, hrowelev, Except.map, Bind.bind, Except.bind]

/-- Witness for C10 at a one-row frame with only the required columns. -/
theorem json_writer_requires_elev_witness :
    dataframe_to_json
      { columns := [("STATION", []), ("LAT", []), ("LON", []), ("NETID", [])],
        rows := [{ STATION := "ST01", NETID := "NT", LAT := 1, LON := 2 }] } 0 =
      .error "KeyError: ELEV" :=
  json_writer_requires_elev _ 0 (by simp) (by simp)

/-- C1: for a palette constructed from equal-length sequences of length at
least 1 with both z-sequences sorted ascending and `min(z0) < max(z1)`,
`getDataColor` at `vmin` is exactly the first interval's start color
`rgb0[0]` with channels scaled into `[0,1]` (alpha 1), and at `vmax` exactly
the last interval's end color `rgb1[N-1]` scaled likewise (exact equality
over `ℚ`, hence within any floating-point tolerance). -/
theorem getDataColor_boundary_colors
    (name : String) (z0 z1 : List ℚ) (rgb0 rgb1 : List Rgb) (nc : Option Rgba)
    (hlen1 : z0.length = z1.length) (hlen2 : z0.length = rgb0.length)
    (hlen3 : z0.length = rgb1.length) (hN : 1 ≤ z0.length)
    (hs0 : List.Sorted (· ≤ ·) z0) (hs1 : List.Sorted (· ≤ ·) z1)
    (hmm : npMin z0 < npMax z1) :
    getDataColor (makePalette name z0 z1 rgb0 rgb1 nc) (npMin z0) =
      ((rgb0.headD (0, 0, 0)).1 / 255, (rgb0.headD (0, 0, 0)).2.1 / 255,
        (rgb0.headD (0, 0, 0)).2.2 / 255, 1) ∧
    getDataColor (makePalette name z0 z1 rgb0 rgb1 nc) (npMax z1) =
      ((rgb1.getLastD (0, 0, 0)).1 / 255, (rgb1.getLastD (0, 0, 0)).2.1 / 255,
        (rgb1.getLastD (0, 0, 0)).2.2 / 255, 1) := by
  obtain ⟨a, z0t, rfl⟩ : ∃ h t, z0 = h :: t := by
    cases z0 with
    | nil => simp at hN
    | cons h t => exact ⟨h, t, rfl⟩
  obtain ⟨b, z1t, rfl⟩ : ∃ h t, z1 = h :: t := by
    cases z1 with
    | nil => simp at hlen1
    | cons h t => exact ⟨h, t, rfl⟩
  obtain ⟨r0, rgb0t, rfl⟩ : ∃ h t, rgb0 = h :: t := by
    cases rgb0 with
    | nil => simp at hlen2
    | cons h t => exact ⟨h, t, rfl⟩
  have hrgb1ne : rgb1 ≠ [] := by
    intro hnil
    rw [hnil] at hlen3
    simp at hlen3
  simp only [List.length_cons] at hlen1 hlen2 hlen3
  have hvmin_a : npMin (a :: z0t) = a := npMin_sorted a z0t hs0
  have hvmax_l : npMax (b :: z1t) = z1t.getLastD b := npMax_sorted b z1t hs1
  have hden : npMax (b :: z1t) - npMin (a :: z0t) ≠ 0 := sub_ne_zero.mpr hmm.ne'
  have hnorm0 : pyNormalize (npMin (a :: z0t)) (npMin (a :: z0t)) (npMax (b :: z1t)) =
      .val 0 := by
    simp [pyNormalize, hden]
  have hnorm1 : pyNormalize (npMax (b :: z1t)) (npMin (a :: z0t)) (npMax (b :: z1t)) =
      .val 1 := by
    simp [pyNormalize, hden, div_self hden]
  set fN : ℚ → ℚ :=
    fun z => (z - npMin (a :: z0t)) / (npMax (b :: z1t) - npMin (a :: z0t)) with hfN
  have hX0 : fN a = 0 := by
    simp only [hfN]
    rw [hvmin_a, sub_self, zero_div]
  have hlastv : ((b :: z1t).map fN).getLastD 0 = 1 := by
    rw [getLastD_map_of_ne_nil fN (b :: z1t) (by simp) 0 b, List.getLastD_cons]
    simp only [hfN]
    rw [← hvmax_l]
    exact div_self hden
  have hXlast : (fN a :: (z0t.map fN ++ [((b :: z1t).map fN).getLastD 0])).getLastD 0 = 1 := by
    rw [List.getLastD_cons, getLastD_concat_eq]
    exact hlastv
  have hL1 : (fN a :: (z0t.map fN ++ [((b :: z1t).map fN).getLastD 0])).length =
      (((-(999 / 1000) * 255, -(999 / 1000) * 255, -(999 / 1000) * 255) : Rgb) :: rgb1).length := by
    simp only [List.length_cons, List.length_append, List.length_map, List.length_nil]
    omega
  have hL2 : ((((-(999 / 1000) * 255, -(999 / 1000) * 255, -(999 / 1000) * 255) : Rgb) :: rgb1)).length =
      (r0 :: (rgb0t ++ [(((999 / 1000) * 255, (999 / 1000) * 255, (999 / 1000) * 255) : Rgb)])).length := by
    simp only [List.length_cons, List.length_append, List.length_nil]
    omega
  have hb := fun sel : Rgb → ℚ =>
    cmapEval_buildChannel_boundaries sel (fN a)
      (z0t.map fN ++ [((b :: z1t).map fN).getLastD 0])
      ((-(999 / 1000) * 255, -(999 / 1000) * 255, -(999 / 1000) * 255) : Rgb) rgb1
      r0 (rgb0t ++ [(((999 / 1000) * 255, (999 / 1000) * 255, (999 / 1000) * 255) : Rgb)])
      hX0 hXlast hL1 hL2 hrgb1ne
  have ered : (makePalette name (a :: z0t) (b :: z1t) (r0 :: rgb0t) rgb1 nc).red =
      buildChannel (fun c => c.1)
        (fN a :: (z0t.map fN ++ [((b :: z1t).map fN).getLastD 0]))
        ((-(999 / 1000) * 255, -(999 / 1000) * 255, -(999 / 1000) * 255) :: rgb1)
        (r0 :: (rgb0t ++ [((999 / 1000) * 255, (999 / 1000) * 255, (999 / 1000) * 255)])) := rfl
  have egreen : (makePalette name (a :: z0t) (b :: z1t) (r0 :: rgb0t) rgb1 nc).green =
      buildChannel (fun c => c.2.1)
        (fN a :: (z0t.map fN ++ [((b :: z1t).map fN).getLastD 0]))
        ((-(999 / 1000) * 255, -(999 / 1000) * 255, -(999 / 1000) * 255) :: rgb1)
        (r0 :: (rgb0t ++ [((999 / 1000) * 255, (999 / 1000) * 255, (999 / 1000) * 255)])) := rfl
  have eblue : (makePalette name (a :: z0t) (b :: z1t) (r0 :: rgb0t) rgb1 nc).blue =
      buildChannel (fun c => c.2.2)
        (fN a :: (z0t.map fN ++ [((b :: z1t).map fN).getLastD 0]))
        ((-(999 / 1000) * 255, -(999 / 1000) * 255, -(999 / 1000) * 255) :: rgb1)
        (r0 :: (rgb0t ++ [((999 / 1000) * 255, (999 / 1000) * 255, (999 / 1000) * 255)])) := rfl
  constructor
  · have e0 : getDataColor (makePalette name (a :: z0t) (b :: z1t) (r0 :: rgb0t) rgb1 nc)
        (npMin (a :: z0t)) =
        applyCdict (makePalette name (a :: z0t) (b :: z1t) (r0 :: rgb0t) rgb1 nc)
          (NormResult.val 0) := by
      show applyCdict (makePalette name (a :: z0t) (b :: z1t) (r0 :: rgb0t) rgb1 nc)
          (pyNormalize (npMin (a :: z0t)) (npMin (a :: z0t)) (npMax (b :: z1t))) = _
      rw [hnorm0]
    rw [e0]
    show (cmapEval (makePalette name (a :: z0t) (b :: z1t) (r0 :: rgb0t) rgb1 nc).red 0,
        cmapEval (makePalette name (a :: z0t) (b :: z1t) (r0 :: rgb0t) rgb1 nc).green 0,
        cmapEval (makePalette name (a :: z0t) (b :: z1t) (r0 :: rgb0t) rgb1 nc).blue 0,
        (1 : ℚ)) = _
    rw [ered, egreen, eblue, (hb (fun c => c.1)).1, (hb (fun c => c.2.1)).1,
      (hb (fun c => c.2.2)).1]
    rfl
  · have e1 : getDataColor (makePalette name (a :: z0t) (b :: z1t) (r0 :: rgb0t) rgb1 nc)
        (npMax (b :: z1t)) =
        applyCdict (makePalette name (a :: z0t) (b :: z1t) (r0 :: rgb0t) rgb1 nc)
          (NormResult.val 1) := by
      show applyCdict (makePalette name (a :: z0t) (b :: z1t) (r0 :: rgb0t) rgb1 nc)
          (pyNormalize (npMax (b :: z1t)) (npMin (a :: z0t)) (npMax (b :: z1t))) = _
      rw [hnorm1]
    rw [e1]
    show (cmapEval (makePalette name (a :: z0t) (b :: z1t) (r0 :: rgb0t) rgb1 nc).red 1,
        cmapEval (makePalette name (a :: z0t) (b :: z1t) (r0 :: rgb0t) rgb1 nc).green 1,
        cmapEval (makePalette name (a :: z0t) (b :: z1t) (r0 :: rgb0t) rgb1 nc).blue 1,
        (1 : ℚ)) = _
    rw [ered, egreen, eblue, (hb (fun c => c.1)).2, (hb (fun c => c.2.1)).2,
      (hb (fun c => c.2.2)).2]

/-- Witness for C1 at a concrete two-interval palette. -/
theorem getDataColor_boundary_colors_witness :
    getDataColor (makePalette "w" [0, 1] [1, 2] [(10, 20, 30), (40, 50, 60)]
        [(70, 80, 90), (200, 0, 0)] none) (npMin [0, 1]) =
      ((([(10, 20, 30), (40, 50, 60)] : List Rgb).headD (0, 0, 0)).1 / 255,
        (([(10, 20, 30), (40, 50, 60)] : List Rgb).headD (0, 0, 0)).2.1 / 255,
        (([(10, 20, 30), (40, 50, 60)] : List Rgb).headD (0, 0, 0)).2.2 / 255, 1) ∧
    getDataColor (makePalette "w" [0, 1] [1, 2] [(10, 20, 30), (40, 50, 60)]
        [(70, 80, 90), (200, 0, 0)] none) (npMax [1, 2]) =
      ((([(70, 80, 90), (200, 0, 0)] : List Rgb).getLastD (0, 0, 0)).1 / 255,
        (([(70, 80, 90), (200, 0, 0)] : List Rgb).getLastD (0, 0, 0)).2.1 / 255,
        (([(70, 80, 90), (200, 0, 0)] : List Rgb).getLastD (0, 0, 0)).2.2 / 255, 1) :=
  getDataColor_boundary_colors "w" [0, 1] [1, 2] [(10, 20, 30), (40, 50, 60)]
    [(70, 80, 90), (200, 0, 0)] none rfl rfl rfl (by norm_num)
    (by norm_num [List.sorted_cons]) (by norm_num [List.sorted_cons])
    (by norm_num [npMin, npMax, List.foldl_cons, List.foldl_nil, min_def, max_def])

end ImpactUtils
